import Mathlib

set_option maxRecDepth 2000

/-
Shallow embedding of src/app4.py, a single-endpoint Flask backend that
geocodes two place names via a provider, fetches baseline and live-traffic
driving routes, and assembles a per-segment congestion-colored payload.

Modelling conventions:
- Python floats are modelled as rationals (ℚ).
- Python round (banker rounding, half to even) is modelled by pyRound;
  round(x, 1) by pyRound1.
- Network calls are modelled by an environment (Env) holding the provider
  result for each of the four outbound calls the handler makes, in order:
  geocode(start), geocode(end), directions(driving), directions(driving-traffic).
- A provider result is either a transport error (requests raising) or an HTTP
  response with a status and a parsed JSON body; raise_for_status raises for
  statuses in [400, 600).
- JSON values appearing in annotation arrays are modelled by JVal
  (string, number, or null); a Python index-out-of-range fallback to None is
  modelled by List.getD with default JVal.null.
- The handler returns the list of outbound calls it performed (its trace)
  together with the HTTP outcome; an uncaught Python exception is modelled by
  ApiResult.exception.
-/

deriving instance DecidableEq for Except

/-- A JSON scalar as it can appear in an annotation array: a string, a
number, or null. Python None and JSON null coincide. -/
inductive JVal where
  | s (v : String)
  | num (v : ℚ)
  | null
deriving DecidableEq

/-- One geocoding feature; the source reads features[0].geometry.coordinates
as the pair [lon, lat]. -/
structure GeoFeature where
  lon : ℚ
  lat : ℚ
deriving DecidableEq

/-- The geocoding response body: its features array. -/
structure GeocodeJson where
  features : List GeoFeature
deriving DecidableEq

/-- Result of one outbound HTTP call: a transport failure (requests raises
RequestException) or a response with an HTTP status and a parsed body. -/
inductive NetResult (α : Type) where
  | transportError
  | response (status : ℕ) (body : α)
deriving DecidableEq

/-- The per-leg annotation arrays of a traffic route. The source reads each
with leg.get("annotation", {}).get(key, []) or [], so an absent or null
array collapses to []; we model the arrays directly. -/
structure Annot where
  congestion : List JVal
  speed : List JVal
  duration : List JVal
deriving DecidableEq

/-- One route leg; only its annotation arrays are read. -/
structure Leg where
  annot : Annot
deriving DecidableEq

/-- One provider route. distance and duration are optional because the
source reads the live values with .get(key, 0) defaults; geometry is the
list of [lon, lat] vertices of geometry.coordinates. -/
structure Route where
  distance : Option ℚ
  duration : Option ℚ
  legs : List Leg
  geometry : List (ℚ × ℚ)
deriving DecidableEq

/-- The directions response body: its routes array (read with
.get("routes", [])). -/
structure DirectionsJson where
  routes : List Route
deriving DecidableEq

/-- The network environment of one request: the provider results for the four
outbound calls the handler can make, in program order. -/
structure Env where
  startNet : NetResult GeocodeJson
  endNet : NetResult GeocodeJson
  baseNet : NetResult DirectionsJson
  liveNet : NetResult DirectionsJson

/-- requests Response.raise_for_status raises for statuses in [400, 600). -/
def raiseStatus (status : ℕ) : Bool :=
  400 ≤ status && status < 600

/-- geocode_place: raise on transport error or error status; return
(lat, lon) of the first feature, or the not-found sentinel (None, None),
modelled as Option.none, when the features array is empty. -/
def geocode_place (net : NetResult GeocodeJson) : Except String (Option (ℚ × ℚ)) :=
  match net with
  | .transportError => .error "RequestException"
  | .response status data =>
    if raiseStatus status then .error "HTTPError"
    else
      match data.features with
      | [] => .ok none
      | f :: _ => .ok (some (f.lat, f.lon))

/-- mapbox_directions: raise on transport error or error status; otherwise
return the parsed JSON body unchanged. -/
def mapbox_directions (net : NetResult DirectionsJson) : Except String DirectionsJson :=
  match net with
  | .transportError => .error "RequestException"
  | .response status data =>
    if raiseStatus status then .error "HTTPError"
    else .ok data

/-- color_for_congestion: dictionary lookup with default "gray". The
dictionary keys are the five strings low, moderate, heavy, severe, unknown
and Python None; every other value falls to the default. -/
def color_for_congestion (c : JVal) : String :=
  match c with
  | .s "low" => "green"
  | .s "moderate" => "orange"
  | .s "heavy" => "red"
  | .s "severe" => "darkred"
  | .s "unknown" => "gray"
  | .null => "gray"
  | _ => "gray"

/-- Python round to an integer: nearest integer, ties to the even one.
Written on the numerator and denominator so that the kernel can evaluate
it: with f the floor of q, the fractional part (q - f) compares to one half
exactly as t = 2 * (q.num - f * q.den) compares to q.den. -/
def pyRound (q : ℚ) : ℤ :=
  let n := q.num
  let d : ℤ := (q.den : ℤ)
  let f := Int.fdiv n d
  let t := 2 * (n - f * d)
  if t < d then f
  else if d < t then f + 1
  else if f % 2 = 0 then f else f + 1

/-- Python round(x, 1): one decimal digit, ties to even. -/
def pyRound1 (q : ℚ) : ℚ :=
  mkRat (pyRound (q * 10)) 10

/-- Python str.strip(): drop leading and trailing whitespace. Stated on the
character list of the string so that it evaluates structurally. -/
def pyStrip (s : String) : String :=
  String.mk (((s.data.dropWhile Char.isWhitespace).reverse.dropWhile
    Char.isWhitespace).reverse)

/-- One assembled segment of the response payload. coords holds
[[lat_a, lon_a], [lat_b, lon_b]]. -/
structure Segment where
  coords : (ℚ × ℚ) × (ℚ × ℚ)
  congestion : JVal
  color : String
  speed_kmh : Option ℚ
  duration_s : JVal
deriving DecidableEq

/-- The durations record of one assembled route. -/
structure Durations where
  base_s : ℤ
  traffic_s : ℤ
  delay_s : ℤ
deriving DecidableEq

/-- One assembled route of the response payload. -/
structure RoutePayload where
  id : ℕ
  distance_m : ℚ
  durations : Durations
  segments : List Segment
deriving DecidableEq

/-- The success response body: echoes of the resolved endpoints plus the
assembled routes. -/
structure SuccessBody where
  startName : String
  startLat : ℚ
  startLon : ℚ
  endName : String
  endLat : ℚ
  endLon : ℚ
  routes : List RoutePayload
deriving DecidableEq

/-- A JSON response body: either an error object or a success body. -/
inductive Body where
  | err (msg : String)
  | success (b : SuccessBody)
deriving DecidableEq

/-- Outcome of the handler: an HTTP response (status, body) or an uncaught
exception propagating out of the handler. -/
inductive ApiResult where
  | response (status : ℕ) (body : Body)
  | exception (msg : String)
deriving DecidableEq

/-- One outbound call, recorded in the trace of the handler. -/
inductive Call where
  | geocode (place : String)
  | directions (profile : String)
deriving DecidableEq

/-- Default leg used for (live_route.get("legs") or [{}])[0]: an empty dict,
whose annotation arrays all collapse to []. -/
def dfltLeg : Leg := ⟨⟨[], [], []⟩⟩

/-- Inert default route used only as the List.getD default at indices that
are in bounds. -/
def dfltRoute : Route := ⟨none, none, [], []⟩

/-- Inert default segment used only as the List.getD default at indices that
are in bounds. -/
def dfltSegment : Segment := ⟨((0, 0), (0, 0)), .null, "", none, .null⟩

/-- Inert default payload used only as the List.getD default at indices that
are in bounds. -/
def dfltPayload : RoutePayload := ⟨0, 0, ⟨0, 0, 0⟩, []⟩

/-- The body of the per-vertex-pair loop: segment i of a route, built from
vertices i and i+1 of the geometry and the annotation entries at index i
(None when an array is exhausted). -/
def mkSegment (coords : List (ℚ × ℚ)) (congestions speeds seg_durations : List JVal)
    (i : ℕ) : Segment :=
  let a := coords.getD i (0, 0)
  let b := coords.getD (i + 1) (0, 0)
  let cong := congestions.getD i .null
  let speed_ms := speeds.getD i .null
  let dur_s := seg_durations.getD i .null
  { coords := ((a.2, a.1), (b.2, b.1))
    congestion := cong
    color := color_for_congestion cong
    speed_kmh :=
      match speed_ms with
      | .num v => some (pyRound1 (v * mkRat 36 10))
      | _ => none
    duration_s := dur_s }

/-- The per-route payload assembly, given the already resolved baseline
duration: distance and duration defaults, first leg, annotation arrays,
segment loop, rounded durations and the clamped delay. -/
def mkPayload (ridx : ℕ) (live_route : Route) (base_duration : ℚ) : RoutePayload :=
  let distance_m := live_route.distance.getD 0
  let live_duration := live_route.duration.getD 0
  let leg := live_route.legs.headD dfltLeg
  let congestions := leg.annot.congestion
  let speeds := leg.annot.speed
  let seg_durations := leg.annot.duration
  let coords := live_route.geometry
  { id := ridx
    distance_m := distance_m
    durations :=
      { base_s := pyRound base_duration
        traffic_s := pyRound live_duration
        delay_s := max 0 (pyRound (live_duration - base_duration)) }
    segments := (List.range (coords.length - 1)).map
      (mkSegment coords congestions speeds seg_durations) }

/-- base_routes[ridx]["duration"] if ridx < len(base_routes) else
live_duration. The subscript access raises KeyError when the paired base
route has no duration field. -/
def baseDuration (ridx : ℕ) (live_duration : ℚ) (base_routes : List Route) :
    Except String ℚ :=
  if ridx < base_routes.length then
    match (base_routes.getD ridx dfltRoute).duration with
    | some d => .ok d
    | none => .error "KeyError"
  else .ok live_duration

/-- One iteration of the route loop: resolve the baseline duration, then
assemble the payload. -/
def buildRoute (ridx : ℕ) (live_route : Route) (base_routes : List Route) :
    Except String RoutePayload :=
  match baseDuration ridx (live_route.duration.getD 0) base_routes with
  | .error msg => .error msg
  | .ok bd => .ok (mkPayload ridx live_route bd)

/-- The enumerate loop over the live routes, threading the possibility of a
KeyError from the base-route subscript. -/
def assemble (base_routes : List Route) : ℕ → List Route → Except String (List RoutePayload)
  | _, [] => .ok []
  | ridx, r :: rest =>
    match buildRoute ridx r base_routes with
    | .error msg => .error msg
    | .ok p =>
      match assemble base_routes (ridx + 1) rest with
      | .error msg => .error msg
      | .ok ps => .ok (p :: ps)

/-- The baseline duration in the non-raising case, as a pure function: the
paired base route duration when the index is in range (its field assumed
present), the live duration otherwise. -/
def pureBaseDur (ridx : ℕ) (live_duration : ℚ) (base_routes : List Route) : ℚ :=
  if ridx < base_routes.length then ((base_routes.getD ridx dfltRoute).duration).getD 0
  else live_duration

/-- Pure rendering of one loop iteration, equal to buildRoute whenever the
paired base route (if any) carries a duration. -/
def buildPure (ridx : ℕ) (live_route : Route) (base_routes : List Route) : RoutePayload :=
  mkPayload ridx live_route (pureBaseDur ridx (live_route.duration.getD 0) base_routes)

/-- Pure rendering of the whole route loop. -/
def buildAll (base_routes : List Route) : ℕ → List Route → List RoutePayload
  | _, [] => []
  | ridx, r :: rest => buildPure ridx r base_routes :: buildAll base_routes (ridx + 1) rest

/-- The /api/route handler: trim and validate the two query parameters,
geocode both, fetch base then live routes, assemble the payload. Returns
the trace of outbound calls together with the HTTP outcome. -/
def api_route (startRaw endRaw : String) (env : Env) : List Call × ApiResult :=
  let start := pyStrip startRaw
  let endp := pyStrip endRaw
  if start = "" ∨ endp = "" then
    ([], .response 400 (.err "start and end are required"))
  else
    match geocode_place env.startNet with
    | .error msg => ([.geocode start], .exception msg)
    | .ok g1 =>
      match geocode_place env.endNet with
      | .error msg => ([.geocode start, .geocode endp], .exception msg)
      | .ok g2 =>
        match g1, g2 with
        | some (lat1, lon1), some (lat2, lon2) =>
          (match mapbox_directions env.baseNet with
          | .error msg =>
            ([.geocode start, .geocode endp, .directions "driving"], .exception msg)
          | .ok base_json =>
            let base_routes := base_json.routes
            if base_routes = [] then
              ([.geocode start, .geocode endp, .directions "driving"],
                .response 404 (.err "No base routes found"))
            else
              match mapbox_directions env.liveNet with
              | .error msg =>
                ([.geocode start, .geocode endp, .directions "driving",
                  .directions "driving-traffic"], .exception msg)
              | .ok live_json =>
                let live_routes := live_json.routes
                if live_routes = [] then
                  ([.geocode start, .geocode endp, .directions "driving",
                    .directions "driving-traffic"],
                    .response 404 (.err "No live traffic routes found"))
                else
                  match assemble base_routes 0 live_routes with
                  | .error msg =>
                    ([.geocode start, .geocode endp, .directions "driving",
                      .directions "driving-traffic"], .exception msg)
                  | .ok payload =>
                    ([.geocode start, .geocode endp, .directions "driving",
                      .directions "driving-traffic"],
                      .response 200 (.success
                        { startName := start, startLat := lat1, startLon := lon1
                          endName := endp, endLat := lat2, endLon := lon2
                          routes := payload })))
        | _, _ =>
          ([.geocode start, .geocode endp],
            .response 400 (.err "Could not geocode one or both places."))

/-- The routes array of an outcome, empty unless it is a success response. -/
def routesOf : ApiResult → List RoutePayload
  | .response _ (.success b) => b.routes
  | _ => []

/-- Whether an outcome is a 200 success response. -/
def ok200 : ApiResult → Bool
  | .response 200 (.success _) => true
  | _ => false

/-- A numeric JSON scalar, the isinstance(speed_ms, (int, float)) test. -/
def JVal.isNum : JVal → Bool
  | .num _ => true
  | _ => false

/-- The start geocode call resolved to the coordinate p. -/
abbrev GeoOkSome (net : NetResult GeocodeJson) (p : ℚ × ℚ) : Prop :=
  geocode_place net = .ok (some p)

/-- The directions call returned a body whose routes array is rs. -/
abbrev DirOk (net : NetResult DirectionsJson) (rs : List Route) : Prop :=
  mapbox_directions net = .ok ⟨rs⟩

/-- Every base route paired with a live route carries a duration field, so
the base-route subscript access cannot raise. -/
abbrev BaseDursOk (base live : List Route) : Prop :=
  ∀ i, i < live.length → i < base.length →
    ((base.getD i dfltRoute).duration).isSome = true

/-! Concrete witness data: a fully successful request environment with one
base route and two live routes, so that the count-mismatch fallback and the
annotation-exhaustion paths are both exercised. -/

/-- Witness geometry: three vertices, hence two segments. -/
def wGeom : List (ℚ × ℚ) := [(77, 28), (mkRat 7750 100, mkRat 2850 100), (78, 27)]

/-- Witness annotation arrays of length one, shorter than the two segments. -/
def wAnnot : Annot :=
  { congestion := [.s "low"], speed := [.num 10], duration := [.num (mkRat 9 2)] }

/-- Witness live route 0: full data, duration 100.5 s. -/
def wLive0 : Route :=
  { distance := some 12345, duration := some (mkRat 201 2), legs := [⟨wAnnot⟩]
    geometry := wGeom }

/-- Witness live route 1: no distance, no duration, no legs, no geometry. -/
def wLive1 : Route := { distance := none, duration := none, legs := [], geometry := [] }

/-- Witness base route: duration 90 s. -/
def wBase0 : Route :=
  { distance := some 12000, duration := some 90, legs := [], geometry := wGeom }

/-- Witness environment for a successful request. -/
def wEnvOk : Env :=
  { startNet := .response 200 ⟨[⟨77, 28⟩]⟩
    endNet := .response 200 ⟨[⟨78, 27⟩]⟩
    baseNet := .response 200 ⟨[wBase0]⟩
    liveNet := .response 200 ⟨[wLive0, wLive1]⟩ }

/-- Witness environment whose baseline directions call returns zero routes. -/
def wEnvNoBase : Env :=
  { startNet := .response 200 ⟨[⟨77, 28⟩]⟩
    endNet := .response 200 ⟨[⟨78, 27⟩]⟩
    baseNet := .response 200 ⟨[]⟩
    liveNet := .response 200 ⟨[wLive0]⟩ }

/-- Witness environment whose live directions call returns zero routes. -/
def wEnvNoLive : Env :=
  { startNet := .response 200 ⟨[⟨77, 28⟩]⟩
    endNet := .response 200 ⟨[⟨78, 27⟩]⟩
    baseNet := .response 200 ⟨[wBase0]⟩
    liveNet := .response 200 ⟨[]⟩ }

/-- Witness environment whose second geocode call finds no feature. -/
def wEnvGeoFail : Env :=
  { startNet := .response 200 ⟨[⟨77, 28⟩]⟩
    endNet := .response 200 ⟨[]⟩
    baseNet := .response 200 ⟨[wBase0]⟩
    liveNet := .response 200 ⟨[wLive0]⟩ }

/-- Counterexample base route: duration 9.6 s, which rounds up to 10. -/
def cBase : Route :=
  { distance := some 1000, duration := some (mkRat 48 5), legs := [], geometry := [] }

/-- Counterexample live route: duration 10.4 s, which rounds down to 10,
while the unrounded difference 0.8 rounds to 1. -/
def cLive : Route :=
  { distance := some 1000, duration := some (mkRat 52 5), legs := [], geometry := [] }

/-- Counterexample environment: successful request with one base route of
duration 9.6 s and one live route of duration 10.4 s. -/
def cEnv : Env :=
  { startNet := .response 200 ⟨[⟨77, 28⟩]⟩
    endNet := .response 200 ⟨[⟨78, 27⟩]⟩
    baseNet := .response 200 ⟨[cBase]⟩
    liveNet := .response 200 ⟨[cLive]⟩ }


/-! Helper lemmas: the route loop in its non-raising rendering. -/

theorem buildRoute_eq_pure (ridx : ℕ) (r : Route) (base : List Route)
    (h : ridx < base.length → ((base.getD ridx dfltRoute).duration).isSome = true) :
    buildRoute ridx r base = .ok (buildPure ridx r base) := by
  by_cases hlt : ridx < base.length
  · obtain ⟨d, hd⟩ := Option.isSome_iff_exists.mp (h hlt)
    have hd2 : (base[ridx].duration : Option ℚ) = some d := by
      rw [← List.getD_eq_getElem base dfltRoute hlt]; exact hd
    simp [buildRoute, buildPure, baseDuration, pureBaseDur, hlt, hd2]
  · simp [buildRoute, buildPure, baseDuration, pureBaseDur, hlt]

theorem assemble_eq (base : List Route) (live : List Route) : ∀ (k : ℕ),
    (∀ i, i < live.length → k + i < base.length →
      ((base.getD (k + i) dfltRoute).duration).isSome = true) →
    assemble base k live = .ok (buildAll base k live) := by
  induction live with
  | nil => intro k _; rfl
  | cons r rest ih =>
    intro k h
    have h0 : k < base.length → ((base.getD k dfltRoute).duration).isSome = true := by
      intro hlt
      simpa using h 0 (by simp) (by simpa using hlt)
    have hrest : ∀ i, i < rest.length → (k + 1) + i < base.length →
        ((base.getD ((k + 1) + i) dfltRoute).duration).isSome = true := by
      intro i hi hlt
      have := h (i + 1) (by simpa using Nat.succ_lt_succ hi) (by omega)
      have heq : k + (i + 1) = (k + 1) + i := by omega
      rw [heq] at this
      exact this
    simp only [assemble, buildAll, buildRoute_eq_pure k r base h0, ih (k + 1) hrest]

theorem buildAll_length (base : List Route) (live : List Route) : ∀ (k : ℕ),
    (buildAll base k live).length = live.length := by
  induction live with
  | nil => intro k; rfl
  | cons r rest ih => intro k; simp [buildAll, ih (k + 1)]

theorem buildAll_getD (base : List Route) (live : List Route) : ∀ (k i : ℕ),
    i < live.length →
    (buildAll base k live).getD i dfltPayload =
      buildPure (k + i) (live.getD i dfltRoute) base := by
  induction live with
  | nil => intro k i hi; simp at hi
  | cons r rest ih =>
    intro k i hi
    cases i with
    | zero => simp [buildAll]
    | succ j =>
      have hj : j < rest.length := by simpa using Nat.lt_of_succ_lt_succ hi
      have heq : k + (j + 1) = (k + 1) + j := by omega
      simp only [buildAll, List.getD_cons_succ, heq, ih (k + 1) j hj]

/-- Characterization of a fully successful request: both parameters survive
trimming, both geocodes resolve, both directions calls return a non-empty
route set, and every paired base route carries a duration; then the handler
returns 200 with the echoed endpoints and the assembled routes. -/
theorem api_route_ok (s e : String) (env : Env) (p1 p2 : ℚ × ℚ)
    (base live : List Route)
    (hs : pyStrip s ≠ "") (he : pyStrip e ≠ "")
    (h1 : GeoOkSome env.startNet p1) (h2 : GeoOkSome env.endNet p2)
    (hb : DirOk env.baseNet base) (hl : DirOk env.liveNet live)
    (hbne : base ≠ []) (hlne : live ≠ [])
    (hdur : BaseDursOk base live) :
    (api_route s e env).2 = .response 200 (.success
      { startName := pyStrip s, startLat := p1.1, startLon := p1.2
        endName := pyStrip e, endLat := p2.1, endLon := p2.2
        routes := buildAll base 0 live }) := by
  obtain ⟨lat1, lon1⟩ := p1
  obtain ⟨lat2, lon2⟩ := p2
  have hasm : assemble base 0 live = .ok (buildAll base 0 live) :=
    assemble_eq base live 0 (by intro i hi hlt; simpa using hdur i hi (by simpa using hlt))
  have hcond : ¬(pyStrip s = "" ∨ pyStrip e = "") := by simp [hs, he]
  unfold api_route
  rw [GeoOkSome] at h1 h2
  rw [DirOk] at hb hl
  simp only [h1, h2, hb, hl, if_neg hcond, if_neg hbne, if_neg hlne, hasm]

/-! The claims. -/

/-- C2: the congestion-to-color mapping is total: low maps to green,
moderate to orange, heavy to red, severe to darkred, unknown to gray, the
absent value (None) to gray, any other string to gray and any numeric value
to gray; the result is always one of the five display colors. -/
theorem claim_C2 :
    color_for_congestion (.s "low") = "green" ∧
    color_for_congestion (.s "moderate") = "orange" ∧
    color_for_congestion (.s "heavy") = "red" ∧
    color_for_congestion (.s "severe") = "darkred" ∧
    color_for_congestion (.s "unknown") = "gray" ∧
    color_for_congestion .null = "gray" ∧
    (∀ q : ℚ, color_for_congestion (.num q) = "gray") ∧
    (∀ v : String, v ≠ "low" → v ≠ "moderate" → v ≠ "heavy" → v ≠ "severe" →
      v ≠ "unknown" → color_for_congestion (.s v) = "gray") ∧
    (∀ c : JVal,
      color_for_congestion c ∈ (["green", "orange", "red", "darkred", "gray"] : List String)) := by
  refine ⟨rfl, rfl, rfl, rfl, rfl, rfl, fun q => rfl, ?_, ?_⟩
  · intro v h1 h2 h3 h4 h5
    unfold color_for_congestion
    split <;> simp_all
  · intro c
    unfold color_for_congestion
    split <;> simp

/-- C2 witness: the total mapping evaluated at a category outside the
table. -/
theorem claim_C2_witness : color_for_congestion (.s "pink") = "gray" :=
  claim_C2.2.2.2.2.2.2.2.1 "pink" (by decide) (by decide) (by decide) (by decide)
    (by decide)

/-- C7: a request whose start or end parameter is blank after trimming is
answered 400 with the fixed error message, and no outbound call is made
(the trace is empty). -/
theorem claim_C7 (s e : String) (env : Env)
    (h : pyStrip s = "" ∨ pyStrip e = "") :
    api_route s e env = ([], .response 400 (.err "start and end are required")) := by
  unfold api_route
  rw [if_pos h]

/-- C7 witness: an empty start parameter with a concrete environment. -/
theorem claim_C7_witness :
    api_route "" "Mumbai" wEnvOk = ([], .response 400 (.err "start and end are required")) :=
  claim_C7 "" "Mumbai" wEnvOk (by decide)

/-- C6: after successful validation and geocoding, an empty baseline route
set yields 404 with the base-routes error body, and a non-empty baseline
set followed by an empty live set yields 404 with the live-routes error
body; in both cases the outcome is that error response, so no partial
route payload is returned. -/
theorem claim_C6 (s e : String) (env : Env) (p1 p2 : ℚ × ℚ)
    (hs : pyStrip s ≠ "") (he : pyStrip e ≠ "")
    (h1 : GeoOkSome env.startNet p1) (h2 : GeoOkSome env.endNet p2) :
    (DirOk env.baseNet [] →
      (api_route s e env).2 = .response 404 (.err "No base routes found")) ∧
    (∀ base, DirOk env.baseNet base → base ≠ [] → DirOk env.liveNet [] →
      (api_route s e env).2 = .response 404 (.err "No live traffic routes found")) := by
  obtain ⟨lat1, lon1⟩ := p1
  obtain ⟨lat2, lon2⟩ := p2
  rw [GeoOkSome] at h1 h2
  have hcond : ¬(pyStrip s = "" ∨ pyStrip e = "") := by simp [hs, he]
  constructor
  · intro hb
    rw [DirOk] at hb
    unfold api_route
    simp [h1, h2, hb, if_neg hcond]
  · intro base hb hbne hl
    rw [DirOk] at hb hl
    unfold api_route
    simp [h1, h2, hb, hl, if_neg hcond, if_neg hbne]

/-- C6 witness: empty baseline route set at a concrete environment. -/
theorem claim_C6_witness :
    (api_route "Delhi" "Agra" wEnvNoBase).2 = .response 404 (.err "No base routes found") :=
  (claim_C6 "Delhi" "Agra" wEnvNoBase (28, 77) (27, 78) (by decide) (by decide)
    rfl rfl).1 rfl

/-- C8: geocode_place answers the not-found sentinel exactly when the
provider responded with a non-raising status and zero features; a transport
failure or a raising status propagates as an exception; and, once both
geocode calls return without raising, the handler answers 400 with the
geocoding error body exactly when at least one place is unresolved. -/
theorem claim_C8 (s e : String) (env : Env) (r1 r2 : Option (ℚ × ℚ))
    (hs : pyStrip s ≠ "") (he : pyStrip e ≠ "")
    (h1 : geocode_place env.startNet = .ok r1)
    (h2 : geocode_place env.endNet = .ok r2) :
    (∀ net : NetResult GeocodeJson,
      geocode_place net = .ok none ↔
        ∃ st b, net = .response st b ∧ raiseStatus st = false ∧ b.features = []) ∧
    geocode_place (NetResult.transportError) = .error "RequestException" ∧
    (∀ (st : ℕ) (b : GeocodeJson), raiseStatus st = true →
      geocode_place (.response st b) = .error "HTTPError") ∧
    ((api_route s e env).2 = .response 400 (.err "Could not geocode one or both places.")
      ↔ (r1 = none ∨ r2 = none)) := by
  have hcond : ¬(pyStrip s = "" ∨ pyStrip e = "") := by simp [hs, he]
  refine ⟨?_, rfl, ?_, ?_, ?_⟩
  · intro net
    cases net with
    | transportError => simp [geocode_place]
    | response st b =>
      cases hraise : raiseStatus st with
      | true => simp [geocode_place, hraise]
      | false =>
        cases hf : b.features with
        | nil =>
          simp [geocode_place, hraise, hf]
          exact ⟨st, b, ⟨rfl, rfl⟩, hraise, hf⟩
        | cons f rest => simp [geocode_place, hraise, hf]
  · intro st b hraise
    simp [geocode_place, hraise]
  · intro hres
    by_contra hnone
    push_neg at hnone
    obtain ⟨hn1, hn2⟩ := hnone
    rcases r1 with _ | q1
    · exact hn1 rfl
    rcases r2 with _ | q2
    · exact hn2 rfl
    obtain ⟨lat1, lon1⟩ := q1
    obtain ⟨lat2, lon2⟩ := q2
    unfold api_route at hres
    simp only [h1, h2, if_neg hcond] at hres
    cases hb : mapbox_directions env.baseNet with
    | error msg => rw [hb] at hres; simp at hres
    | ok bj =>
      rw [hb] at hres
      by_cases hbe : bj.routes = []
      · simp [hbe] at hres
      · cases hl : mapbox_directions env.liveNet with
        | error msg => rw [hl] at hres; simp [hbe] at hres
        | ok lj =>
          rw [hl] at hres
          by_cases hle : lj.routes = []
          · simp [hbe, hle] at hres
          · simp only [if_neg hbe, if_neg hle] at hres
            cases ha : assemble bj.routes 0 lj.routes with
            | error msg => rw [ha] at hres; simp at hres
            | ok ps => rw [ha] at hres; simp at hres
  · intro hor
    unfold api_route
    simp only [if_neg hcond]
    rcases hor with h | h
    · subst h
      simp [h1, h2]
    · subst h
      rcases r1 with _ | q1
      · simp [h1, h2]
      · obtain ⟨lat1, lon1⟩ := q1
        simp [h1, h2]

/-- C8 witness: the second geocode call returns zero features at a concrete
environment, and the handler answers the geocoding 400. -/
theorem claim_C8_witness :
    (api_route "Delhi" "Agra" wEnvGeoFail).2
      = .response 400 (.err "Could not geocode one or both places.") :=
  ((claim_C8 "Delhi" "Agra" wEnvGeoFail (some (28, 77)) none (by decide) (by decide)
    rfl rfl).2.2.2).mpr (Or.inr rfl)

/-! Field-level helper lemmas for the assembled payload. -/

theorem pyRound_zero : pyRound 0 = 0 := by decide

theorem getD_range_map {α : Type} (f : ℕ → α) (n i : ℕ) (h : i < n) (d : α) :
    ((List.range n).map f).getD i d = f i := by
  have hlen : i < ((List.range n).map f).length := by simpa using h
  rw [List.getD_eq_getElem _ _ hlen]
  simp

theorem buildPure_delay (ridx : ℕ) (r : Route) (base : List Route) :
    (buildPure ridx r base).durations.delay_s
      = max 0 (pyRound (r.duration.getD 0 - pureBaseDur ridx (r.duration.getD 0) base)) := rfl

theorem buildPure_base_s (ridx : ℕ) (r : Route) (base : List Route) :
    (buildPure ridx r base).durations.base_s
      = pyRound (pureBaseDur ridx (r.duration.getD 0) base) := rfl

theorem buildPure_traffic_s (ridx : ℕ) (r : Route) (base : List Route) :
    (buildPure ridx r base).durations.traffic_s = pyRound (r.duration.getD 0) := rfl

theorem buildPure_distance (ridx : ℕ) (r : Route) (base : List Route) :
    (buildPure ridx r base).distance_m = r.distance.getD 0 := rfl

theorem buildPure_segments (ridx : ℕ) (r : Route) (base : List Route) :
    (buildPure ridx r base).segments
      = (List.range (r.geometry.length - 1)).map
          (mkSegment r.geometry ((r.legs.headD dfltLeg).annot.congestion)
            ((r.legs.headD dfltLeg).annot.speed)
            ((r.legs.headD dfltLeg).annot.duration)) := rfl

theorem mkSegment_speed (coords : List (ℚ × ℚ)) (cs sp ds : List JVal) (i : ℕ) :
    (mkSegment coords cs sp ds i).speed_kmh
      = match sp.getD i JVal.null with
        | JVal.num v => some (pyRound1 (v * mkRat 36 10))
        | _ => none := rfl

theorem mkSegment_congestion (coords : List (ℚ × ℚ)) (cs sp ds : List JVal) (i : ℕ) :
    (mkSegment coords cs sp ds i).congestion = cs.getD i JVal.null := rfl

theorem mkSegment_color (coords : List (ℚ × ℚ)) (cs sp ds : List JVal) (i : ℕ) :
    (mkSegment coords cs sp ds i).color = color_for_congestion (cs.getD i JVal.null) := rfl

theorem mkSegment_duration (coords : List (ℚ × ℚ)) (cs sp ds : List JVal) (i : ℕ) :
    (mkSegment coords cs sp ds i).duration_s = ds.getD i JVal.null := rfl

/-- C1: for every successful request (both parameters non-blank, both
geocodes resolved, both route sets non-empty, paired base durations
present), the response is a 200 success, its routes array has exactly as
many entries as the live route collection, and route ridx has
(vertex count - 1) segments, segment i joining vertices i and i+1 of that
route geometry (each vertex [lon, lat] echoed as [lat, lon]). -/
theorem claim_C1 (s e : String) (env : Env) (p1 p2 : ℚ × ℚ) (base live : List Route)
    (hs : pyStrip s ≠ "") (he : pyStrip e ≠ "")
    (h1 : GeoOkSome env.startNet p1) (h2 : GeoOkSome env.endNet p2)
    (hb : DirOk env.baseNet base) (hl : DirOk env.liveNet live)
    (hbne : base ≠ []) (hlne : live ≠ []) (hdur : BaseDursOk base live) :
    ok200 (api_route s e env).2 = true ∧
    (routesOf (api_route s e env).2).length = live.length ∧
    ∀ ridx, ridx < live.length →
      ((routesOf (api_route s e env).2).getD ridx dfltPayload).segments.length
          = (live.getD ridx dfltRoute).geometry.length - 1 ∧
      ∀ i, i + 1 < (live.getD ridx dfltRoute).geometry.length →
        (((routesOf (api_route s e env).2).getD ridx dfltPayload).segments.getD i
            dfltSegment).coords
          = ((((live.getD ridx dfltRoute).geometry.getD i (0, 0)).2,
              ((live.getD ridx dfltRoute).geometry.getD i (0, 0)).1),
             (((live.getD ridx dfltRoute).geometry.getD (i + 1) (0, 0)).2,
              ((live.getD ridx dfltRoute).geometry.getD (i + 1) (0, 0)).1)) := by
  have hresp := api_route_ok s e env p1 p2 base live hs he h1 h2 hb hl hbne hlne hdur
  rw [hresp]
  refine ⟨rfl, ?_, ?_⟩
  · simp [routesOf, buildAll_length]
  · intro ridx hri
    have hgd : (buildAll base 0 live).getD ridx dfltPayload
        = buildPure ridx (live.getD ridx dfltRoute) base := by
      simpa using buildAll_getD base live 0 ridx hri
    constructor
    · simp only [routesOf]
      rw [hgd, buildPure_segments]
      simp
    · intro i hi
      have hlt : i < (live.getD ridx dfltRoute).geometry.length - 1 := by omega
      simp only [routesOf]
      rw [hgd, buildPure_segments, getD_range_map _ _ _ hlt]
      rfl

/-- C1 witness: the successful witness environment has two live routes and
the response echoes two routes, the first with two segments. -/
theorem claim_C1_witness :
    (routesOf (api_route "Delhi" "Agra" wEnvOk).2).length = 2 ∧
    ((routesOf (api_route "Delhi" "Agra" wEnvOk).2).getD 0 dfltPayload).segments.length = 2 := by
  have h := claim_C1 "Delhi" "Agra" wEnvOk (28, 77) (27, 78) [wBase0] [wLive0, wLive1]
    (by decide) (by decide) rfl rfl rfl rfl
    (by decide) (by decide) (by decide)
  exact ⟨h.2.1, (h.2.2 0 (by decide)).1⟩

/-- C3: in every successful response, delay_s is non-negative, and for every
route positionally paired with a base route, delay_s is the clamped rounding
of the difference of the unrounded live and base durations. -/
theorem claim_C3 (s e : String) (env : Env) (p1 p2 : ℚ × ℚ) (base live : List Route)
    (hs : pyStrip s ≠ "") (he : pyStrip e ≠ "")
    (h1 : GeoOkSome env.startNet p1) (h2 : GeoOkSome env.endNet p2)
    (hb : DirOk env.baseNet base) (hl : DirOk env.liveNet live)
    (hbne : base ≠ []) (hlne : live ≠ []) (hdur : BaseDursOk base live) :
    ∀ ridx, ridx < live.length →
      0 ≤ ((routesOf (api_route s e env).2).getD ridx dfltPayload).durations.delay_s ∧
      (ridx < base.length →
        ((routesOf (api_route s e env).2).getD ridx dfltPayload).durations.delay_s
          = max 0 (pyRound ((live.getD ridx dfltRoute).duration.getD 0
              - (base.getD ridx dfltRoute).duration.getD 0))) := by
  have hresp := api_route_ok s e env p1 p2 base live hs he h1 h2 hb hl hbne hlne hdur
  rw [hresp]
  intro ridx hri
  have hgd : (buildAll base 0 live).getD ridx dfltPayload
      = buildPure ridx (live.getD ridx dfltRoute) base := by
    simpa using buildAll_getD base live 0 ridx hri
  constructor
  · simp only [routesOf, hgd, buildPure_delay]
    exact le_max_left 0 _
  · intro hrb
    simp only [routesOf, hgd, buildPure_delay, pureBaseDur, if_pos hrb]

/-- C3 witness: route 0 of the witness environment, live 100.5 s against
base 90 s, giving the clamped rounded delay. -/
theorem claim_C3_witness :
    0 ≤ ((routesOf (api_route "Delhi" "Agra" wEnvOk).2).getD 0 dfltPayload).durations.delay_s ∧
    ((routesOf (api_route "Delhi" "Agra" wEnvOk).2).getD 0 dfltPayload).durations.delay_s
      = max 0 (pyRound (mkRat 201 2 - 90)) := by
  have h := claim_C3 "Delhi" "Agra" wEnvOk (28, 77) (27, 78) [wBase0] [wLive0, wLive1]
    (by decide) (by decide) rfl rfl rfl rfl
    (by decide) (by decide) (by decide)
  have h0 := h 0 (by decide)
  exact ⟨h0.1, h0.2 (by decide)⟩

/-- C5: in every successful response, every live route whose index has no
baseline counterpart falls back to its own duration as baseline, so its
base_s equals its traffic_s and its delay_s is zero, and the request still
succeeds. -/
theorem claim_C5 (s e : String) (env : Env) (p1 p2 : ℚ × ℚ) (base live : List Route)
    (hs : pyStrip s ≠ "") (he : pyStrip e ≠ "")
    (h1 : GeoOkSome env.startNet p1) (h2 : GeoOkSome env.endNet p2)
    (hb : DirOk env.baseNet base) (hl : DirOk env.liveNet live)
    (hbne : base ≠ []) (hlne : live ≠ []) (hdur : BaseDursOk base live) :
    ok200 (api_route s e env).2 = true ∧
    ∀ ridx, base.length ≤ ridx → ridx < live.length →
      ((routesOf (api_route s e env).2).getD ridx dfltPayload).durations.base_s
          = ((routesOf (api_route s e env).2).getD ridx dfltPayload).durations.traffic_s ∧
      ((routesOf (api_route s e env).2).getD ridx dfltPayload).durations.delay_s = 0 := by
  have hresp := api_route_ok s e env p1 p2 base live hs he h1 h2 hb hl hbne hlne hdur
  rw [hresp]
  refine ⟨rfl, ?_⟩
  intro ridx hbl hri
  have hgd : (buildAll base 0 live).getD ridx dfltPayload
      = buildPure ridx (live.getD ridx dfltRoute) base := by
    simpa using buildAll_getD base live 0 ridx hri
  have hnlt : ¬ridx < base.length := by omega
  constructor
  · simp only [routesOf]
    rw [hgd, buildPure_base_s, buildPure_traffic_s]
    simp only [pureBaseDur, if_neg hnlt]
  · simp only [routesOf]
    rw [hgd, buildPure_delay]
    simp only [pureBaseDur, if_neg hnlt, sub_self, pyRound_zero]
    simp

/-- C5 witness: live route 1 of the witness environment has no baseline
counterpart; its payload shows equal base and traffic seconds and zero
delay. -/
theorem claim_C5_witness :
    ((routesOf (api_route "Delhi" "Agra" wEnvOk).2).getD 1 dfltPayload).durations.base_s
        = ((routesOf (api_route "Delhi" "Agra" wEnvOk).2).getD 1 dfltPayload).durations.traffic_s ∧
    ((routesOf (api_route "Delhi" "Agra" wEnvOk).2).getD 1 dfltPayload).durations.delay_s = 0 := by
  have h := claim_C5 "Delhi" "Agra" wEnvOk (28, 77) (27, 78) [wBase0] [wLive0, wLive1]
    (by decide) (by decide) rfl rfl rfl rfl
    (by decide) (by decide) (by decide)
  exact h.2 1 (by decide) (by decide)

/-- C9: in every successful response, segment i of a route carries
speed_kmh = round(speed_ms * 3.6, 1) exactly when the aligned speed entry
is numeric and no speed otherwise; and when an annotation array is
exhausted at i, the congestion is the absent value (colored gray) and the
duration is absent, with no failure. -/
theorem claim_C9 (s e : String) (env : Env) (p1 p2 : ℚ × ℚ) (base live : List Route)
    (hs : pyStrip s ≠ "") (he : pyStrip e ≠ "")
    (h1 : GeoOkSome env.startNet p1) (h2 : GeoOkSome env.endNet p2)
    (hb : DirOk env.baseNet base) (hl : DirOk env.liveNet live)
    (hbne : base ≠ []) (hlne : live ≠ []) (hdur : BaseDursOk base live) :
    ∀ ridx, ridx < live.length →
    ∀ i, i + 1 < (live.getD ridx dfltRoute).geometry.length →
      (∀ v : ℚ,
        ((live.getD ridx dfltRoute).legs.headD dfltLeg).annot.speed.getD i JVal.null
            = JVal.num v →
        ((((routesOf (api_route s e env).2).getD ridx dfltPayload).segments.getD i
            dfltSegment).speed_kmh) = some (pyRound1 (v * mkRat 36 10))) ∧
      ((((live.getD ridx dfltRoute).legs.headD dfltLeg).annot.speed.getD i
            JVal.null).isNum = false →
        ((((routesOf (api_route s e env).2).getD ridx dfltPayload).segments.getD i
            dfltSegment).speed_kmh) = none) ∧
      (((live.getD ridx dfltRoute).legs.headD dfltLeg).annot.congestion.length ≤ i →
        ((((routesOf (api_route s e env).2).getD ridx dfltPayload).segments.getD i
            dfltSegment).congestion) = JVal.null ∧
        ((((routesOf (api_route s e env).2).getD ridx dfltPayload).segments.getD i
            dfltSegment).color) = "gray") ∧
      (((live.getD ridx dfltRoute).legs.headD dfltLeg).annot.duration.length ≤ i →
        ((((routesOf (api_route s e env).2).getD ridx dfltPayload).segments.getD i
            dfltSegment).duration_s) = JVal.null) := by
  have hresp := api_route_ok s e env p1 p2 base live hs he h1 h2 hb hl hbne hlne hdur
  rw [hresp]
  intro ridx hri i hi
  have hgd : (buildAll base 0 live).getD ridx dfltPayload
      = buildPure ridx (live.getD ridx dfltRoute) base := by
    simpa using buildAll_getD base live 0 ridx hri
  have hlt : i < (live.getD ridx dfltRoute).geometry.length - 1 := by omega
  simp only [routesOf]
  rw [hgd, buildPure_segments, getD_range_map _ _ _ hlt]
  refine ⟨?_, ?_, ?_, ?_⟩
  · intro v hv
    rw [mkSegment_speed, hv]
  · intro hnv
    rw [mkSegment_speed]
    cases hsp : ((live.getD ridx dfltRoute).legs.headD dfltLeg).annot.speed.getD i
        JVal.null with
    | s w => rfl
    | num w => rw [hsp] at hnv; simp [JVal.isNum] at hnv
    | null => rfl
  · intro hlen
    have hc : ((live.getD ridx dfltRoute).legs.headD dfltLeg).annot.congestion.getD i
        JVal.null = JVal.null := List.getD_eq_default _ _ hlen
    exact ⟨by rw [mkSegment_congestion, hc], by rw [mkSegment_color, hc]; rfl⟩
  · intro hlen
    have hd : ((live.getD ridx dfltRoute).legs.headD dfltLeg).annot.duration.getD i
        JVal.null = JVal.null := List.getD_eq_default _ _ hlen
    rw [mkSegment_duration, hd]

/-- C9 witness: in the witness environment, segment 0 of route 0 has a
numeric speed entry converted to km/h, and at segment 1 every annotation
array is exhausted, giving absent congestion colored gray. -/
theorem claim_C9_witness :
    ((((routesOf (api_route "Delhi" "Agra" wEnvOk).2).getD 0 dfltPayload).segments.getD 0
        dfltSegment).speed_kmh) = some (pyRound1 (10 * mkRat 36 10)) ∧
    ((((routesOf (api_route "Delhi" "Agra" wEnvOk).2).getD 0 dfltPayload).segments.getD 1
        dfltSegment).congestion) = JVal.null ∧
    ((((routesOf (api_route "Delhi" "Agra" wEnvOk).2).getD 0 dfltPayload).segments.getD 1
        dfltSegment).color) = "gray" := by
  have h := claim_C9 "Delhi" "Agra" wEnvOk (28, 77) (27, 78) [wBase0] [wLive0, wLive1]
    (by decide) (by decide) rfl rfl rfl rfl
    (by decide) (by decide) (by decide)
  have h0 := h 0 (by decide) 0 (by decide)
  have h1 := h 0 (by decide) 1 (by decide)
  exact ⟨h0.1 10 rfl, (h1.2.2.1 (by decide)).1, (h1.2.2.1 (by decide)).2⟩

/-- C10: in every successful response, a live route with no distance field
is echoed with distance_m 0 and one with a distance field is echoed with
that distance; a live route with no duration field is echoed with
traffic_s 0; the request still succeeds. -/
theorem claim_C10 (s e : String) (env : Env) (p1 p2 : ℚ × ℚ) (base live : List Route)
    (hs : pyStrip s ≠ "") (he : pyStrip e ≠ "")
    (h1 : GeoOkSome env.startNet p1) (h2 : GeoOkSome env.endNet p2)
    (hb : DirOk env.baseNet base) (hl : DirOk env.liveNet live)
    (hbne : base ≠ []) (hlne : live ≠ []) (hdur : BaseDursOk base live) :
    ok200 (api_route s e env).2 = true ∧
    ∀ ridx, ridx < live.length →
      ((live.getD ridx dfltRoute).distance = none →
        ((routesOf (api_route s e env).2).getD ridx dfltPayload).distance_m = 0) ∧
      (∀ dq : ℚ, (live.getD ridx dfltRoute).distance = some dq →
        ((routesOf (api_route s e env).2).getD ridx dfltPayload).distance_m = dq) ∧
      ((live.getD ridx dfltRoute).duration = none →
        ((routesOf (api_route s e env).2).getD ridx dfltPayload).durations.traffic_s = 0) := by
  have hresp := api_route_ok s e env p1 p2 base live hs he h1 h2 hb hl hbne hlne hdur
  rw [hresp]
  refine ⟨rfl, ?_⟩
  intro ridx hri
  have hgd : (buildAll base 0 live).getD ridx dfltPayload
      = buildPure ridx (live.getD ridx dfltRoute) base := by
    simpa using buildAll_getD base live 0 ridx hri
  refine ⟨?_, ?_, ?_⟩
  · intro hnone
    simp only [routesOf]
    rw [hgd, buildPure_distance, hnone]
    rfl
  · intro dq hsome
    simp only [routesOf]
    rw [hgd, buildPure_distance, hsome]
    rfl
  · intro hnone
    simp only [routesOf]
    rw [hgd, buildPure_traffic_s, hnone]
    simp [pyRound_zero]

/-- C10 witness: live route 1 of the witness environment carries neither a
distance nor a duration field; its payload echoes distance 0 and traffic
seconds 0. -/
theorem claim_C10_witness :
    ((routesOf (api_route "Delhi" "Agra" wEnvOk).2).getD 1 dfltPayload).distance_m = 0 ∧
    ((routesOf (api_route "Delhi" "Agra" wEnvOk).2).getD 1 dfltPayload).durations.traffic_s
      = 0 := by
  have h := claim_C10 "Delhi" "Agra" wEnvOk (28, 77) (27, 78) [wBase0] [wLive0, wLive1]
    (by decide) (by decide) rfl rfl rfl rfl
    (by decide) (by decide) (by decide)
  have h1 := h.2 1 (by decide)
  exact ⟨h1.1 rfl, h1.2.2 rfl⟩

/-- C4 counterexample: a successful response in which the durations record
reads base_s = 10, traffic_s = 10, delay_s = 1, so delay_s differs from
max(0, round(traffic_s - base_s)) = 0 computed from the rounded values of
the record. -/
theorem claim_C4_counterexample :
    ok200 (api_route "Delhi" "Agra" cEnv).2 = true ∧
    ((routesOf (api_route "Delhi" "Agra" cEnv).2).getD 0 dfltPayload).durations.base_s = 10 ∧
    ((routesOf (api_route "Delhi" "Agra" cEnv).2).getD 0 dfltPayload).durations.traffic_s
      = 10 ∧
    ((routesOf (api_route "Delhi" "Agra" cEnv).2).getD 0 dfltPayload).durations.delay_s = 1 ∧
    ¬(((routesOf (api_route "Delhi" "Agra" cEnv).2).getD 0 dfltPayload).durations.delay_s
        = max 0 (pyRound
            (((((routesOf (api_route "Delhi" "Agra" cEnv).2).getD 0
                  dfltPayload).durations.traffic_s : ℚ))
              - ((((routesOf (api_route "Delhi" "Agra" cEnv).2).getD 0
                  dfltPayload).durations.base_s : ℚ))))) := by
  with_unfolding_all decide

/-- C4 as amended: in every successful response, delay_s equals
max(0, round(live_duration - base_duration)) computed from the unrounded
provider durations (the paired base duration, or the live duration itself
past the end of the base list); this can differ from
max(0, round(traffic_s - base_s)) computed from the rounded fields of the
record. -/
theorem claim_C4_amended (s e : String) (env : Env) (p1 p2 : ℚ × ℚ)
    (base live : List Route)
    (hs : pyStrip s ≠ "") (he : pyStrip e ≠ "")
    (h1 : GeoOkSome env.startNet p1) (h2 : GeoOkSome env.endNet p2)
    (hb : DirOk env.baseNet base) (hl : DirOk env.liveNet live)
    (hbne : base ≠ []) (hlne : live ≠ []) (hdur : BaseDursOk base live) :
    ∀ ridx, ridx < live.length →
      ((routesOf (api_route s e env).2).getD ridx dfltPayload).durations.delay_s
        = max 0 (pyRound ((live.getD ridx dfltRoute).duration.getD 0
            - pureBaseDur ridx ((live.getD ridx dfltRoute).duration.getD 0) base)) := by
  have hresp := api_route_ok s e env p1 p2 base live hs he h1 h2 hb hl hbne hlne hdur
  rw [hresp]
  intro ridx hri
  have hgd : (buildAll base 0 live).getD ridx dfltPayload
      = buildPure ridx (live.getD ridx dfltRoute) base := by
    simpa using buildAll_getD base live 0 ridx hri
  simp only [routesOf]
  rw [hgd, buildPure_delay]

/-- C4 witness: the amended equation evaluated on the counterexample
environment. -/
theorem claim_C4_witness :
    ((routesOf (api_route "Delhi" "Agra" cEnv).2).getD 0 dfltPayload).durations.delay_s
      = max 0 (pyRound (mkRat 52 5 - pureBaseDur 0 (mkRat 52 5) [cBase])) := by
  have h := claim_C4_amended "Delhi" "Agra" cEnv (28, 77) (27, 78) [cBase] [cLive]
    (by decide) (by decide) rfl rfl rfl rfl (by decide) (by decide) (by decide)
  exact h 0 (by decide)
